/-
Verification of the core of the google-search-operator-tool repository
(src/utils.py and src/search_operators.py) against its natural-language
specification.

Python strings are shallowly embedded as `List Char` (the type `PS`); each
Python string helper used by the source (str.strip, str.split, str.upper,
"in" substring test, startswith/endswith, urllib.parse.quote_plus) is given
an executable Lean model, and the source functions are translated line by
line on top of them.
-/
import Mathlib

/-- Python strings are modelled as lists of characters. -/
abbrev PS := List Char

/-- Convert a Lean string literal to the embedded representation. -/
def pstr (s : String) : PS := s.data

/-- The double-quote character. -/
def qt : Char := Char.ofNat 34

/-- The single-quote (apostrophe) character. -/
def apos : Char := Char.ofNat 39

/-- The newline character. -/
def nl : Char := Char.ofNat 10

/-- The space character. -/
def sp : Char := ' '

/-- The hyphen character. -/
def hyph : Char := '-'

/-- Whitespace in the sense of Python `str.strip()` / `str.split()`
(code points for which Python `str.isspace()` is true). -/
def pyIsSpace (c : Char) : Bool :=
  let n := c.toNat
  (9 ≤ n && n ≤ 13) || (28 ≤ n && n ≤ 31) || n == 32 || n == 133 || n == 160 ||
  n == 5760 || (8192 ≤ n && n ≤ 8202) || n == 8232 || n == 8233 ||
  n == 8239 || n == 8287 || n == 12288

/-- Python `s.strip()`: drop leading and trailing whitespace. -/
def pyStrip (s : PS) : PS :=
  ((s.dropWhile pyIsSpace).reverse.dropWhile pyIsSpace).reverse

/-- Python `s.split(sep)` for a one-character separator: split at every
occurrence of `sep`, keeping empty pieces (`"".split(sep) == [""]`). -/
def pySplitOn (sep : Char) : PS → List PS
  | [] => [[]]
  | c :: rest =>
    if c = sep then [] :: pySplitOn sep rest
    else
      match pySplitOn sep rest with
      | [] => [[c]]
      | p :: ps => (c :: p) :: ps

/-- Accumulator loop for `pySplitWS`; `cur` holds the characters of the
word being read, in reverse order. -/
def wsGo : PS → PS → List PS
  | [], cur => if cur.isEmpty then [] else [cur.reverse]
  | c :: rest, cur =>
    if pyIsSpace c then
      if cur.isEmpty then wsGo rest [] else cur.reverse :: wsGo rest []
    else wsGo rest (c :: cur)

/-- Python `s.split()` with no argument: split on runs of whitespace,
discarding empty pieces. -/
def pySplitWS (s : PS) : List PS := wsGo s []

/-- Python `' '.join(words)`. -/
def joinSpace : List PS → PS
  | [] => []
  | [w] => w
  | w :: rest => w ++ sp :: joinSpace rest

/-- Python `s.startswith(p)`. -/
def isPrefL : PS → PS → Bool
  | [], _ => true
  | _ :: _, [] => false
  | a :: as, b :: bs => a == b && isPrefL as bs

/-- Python `s.endswith(p)`. -/
def isSufL (p s : PS) : Bool := isPrefL p.reverse s.reverse

/-- Python `c in s` for a single character. -/
def hasCh (c : Char) (s : PS) : Bool := s.any (fun x => x == c)

/-- Python `n in s` substring containment. -/
def hasSub (n : PS) : PS → Bool
  | [] => isPrefL n []
  | c :: rest => isPrefL n (c :: rest) || hasSub n rest

/-- ASCII upper-casing of one character.  Python `str.upper()` also maps a
few non-ASCII code points, but none of them map into the letters of
`"AROUND("`, which is the only string this model is used against, so the
ASCII mapping is extensionally faithful there. -/
def asciiUpperC (c : Char) : Char :=
  if 'a' ≤ c && c ≤ 'z' then Char.ofNat (c.toNat - 32) else c

/-- Python `s.upper()` (ASCII fragment, see `asciiUpperC`). -/
def asciiUpperL (s : PS) : PS := s.map asciiUpperC

/-- ASCII letters and digits, the character class `[a-zA-Z0-9]`. -/
def asciiAlnum (c : Char) : Bool :=
  ('a' ≤ c && c ≤ 'z') || ('A' ≤ c && c ≤ 'Z') || ('0' ≤ c && c ≤ '9')

/-- UTF-8 encoding of one character, as byte values. -/
def utf8Bytes (c : Char) : List Nat :=
  let n := c.toNat
  if n < 128 then [n]
  else if n < 2048 then [192 + n / 64, 128 + n % 64]
  else if n < 65536 then [224 + n / 4096, 128 + (n / 64) % 64, 128 + n % 64]
  else [240 + n / 262144, 128 + (n / 4096) % 64, 128 + (n / 64) % 64,
        128 + n % 64]

/-- Upper-case hexadecimal digit, as used by `urllib.parse.quote`. -/
def hexDig (n : Nat) : Char :=
  if n < 10 then Char.ofNat (48 + n) else Char.ofNat (55 + n)

/-- One percent-encoded byte, e.g. `%2F`. -/
def pctByte (b : Nat) : List Char :=
  [Char.ofNat 37, hexDig (b / 16), hexDig (b % 16)]

/-- Model of `urllib.parse.quote_plus` on one character: a space becomes `+`, the
always-safe characters (ASCII alphanumerics and `_ . - ~`) pass through,
everything else is percent-encoded byte by byte (UTF-8). -/
def quotePlusChar (c : Char) : List Char :=
  if c == sp then [Char.ofNat 43]
  else if asciiAlnum c || c == Char.ofNat 95 || c == '.' || c == hyph ||
          c == Char.ofNat 126 then [c]
  else List.flatten ((utf8Bytes c).map pctByte)

/-- Python `urllib.parse.quote_plus(s)`. -/
def quotePlus (s : PS) : PS := List.flatten (s.map quotePlusChar)

/-- The fixed Google-search URL template of `build_search_url`. -/
def googleUrl (encoded : PS) : PS :=
  pstr "https://www.google.com/search?q=" ++ encoded ++ pstr "&num=100"

/-- The `additional_params` mapping of `build_search_url`.  The source only
ever reads the key `'date'`, so the mapping is modelled by that single
optional entry.  (Python's guard `additional_params and 'date' in
additional_params` is truthy exactly when the mapping is given and carries
the key `'date'`: an empty dict is falsy and in any case has no `'date'`
key, so `getDate` below captures the guard exactly.) -/
structure Params where
  date : Option PS

/-- The value of `additional_params['date']` when the guard
`additional_params and 'date' in additional_params` holds, else `none`. -/
def getDate : Option Params → Option PS
  | some p => p.date
  | none => none

/-- The query string assembled by `build_search_url` (src/utils.py lines
132-172) before URL encoding: strip the term, then apply the first matching
operator rule. -/
def build_query (operator search_term : PS)
    (additional_params : Option Params) : PS :=
  let t := pyStrip search_term
  if operator = pstr "before:" ∨ operator = pstr "after:" then
    match getDate additional_params with
    | some d => operator ++ d ++ sp :: t
    | none => operator ++ pstr "2020-01-01 " ++ t
  else if operator = pstr "daterange:" then
    match getDate additional_params with
    | some d => pstr "after:" ++ d.take 4 ++ pstr "-01-01 before:" ++
                d.take 4 ++ pstr "-12-31 " ++ t
    | none => pstr "after:2020-01-01 before:2021-12-31 " ++ t
  else if operator = pstr "around(X):" then
    -- Python: if "AROUND(" not in search_term.upper(): rewrite, else pass.
    if hasSub (pstr "AROUND(") (asciiUpperL t) then t
    else
      match pySplitWS t with
      | w1 :: w2 :: rest => w1 ++ pstr " AROUND(5) " ++ joinSpace (w2 :: rest)
      | _ => t ++ pstr " AROUND(5) related"
  else if isSufL (pstr ":") operator then
    if operator ∈ [pstr "site:", pstr "related:", pstr "cache:",
                   pstr "link:", pstr "info:"] then
      operator ++ t
    else if hasCh sp t && !(isPrefL [qt] t && isSufL [qt] t) then
      operator ++ qt :: t ++ [qt]
    else operator ++ t
  else operator ++ sp :: t

/-- Model of `build_search_url` (src/utils.py lines 120-180): assemble the query,
`quote_plus`-encode it, and substitute into the fixed URL template. -/
def build_search_url (operator search_term : PS)
    (additional_params : Option Params) : PS :=
  googleUrl (quotePlus (build_query operator search_term additional_params))

/-- Denotation of the anchored domain-label regex fragment
`[a-zA-Z0-9]([a-zA-Z0-9\-]{0,61}[a-zA-Z0-9])?` from `validate_url`
(src/utils.py line 90): a nonempty string of at most 63 characters whose
first and last characters are ASCII alphanumeric and whose remaining
characters are ASCII alphanumeric or hyphens.  (The backtracking regex
matches a string exactly under this decomposition.) -/
def labelRe (l : PS) : Bool :=
  match l with
  | [] => false
  | c :: rest =>
    asciiAlnum c && decide (rest.length ≤ 62) &&
    rest.all (fun x => asciiAlnum x || x == hyph) &&
    (match (c :: rest).getLast? with
     | some d => asciiAlnum d
     | none => false)

/-- Denotation of the full anchored pattern `^label(\.label)*$` without the
end-of-line tolerance: every dot-separated piece is a label.  Splitting on
dots is faithful because a label can never contain a dot. -/
def domainRe (s : PS) : Bool := (pySplitOn '.' s).all labelRe

/-- Model of `bool(re.match(domain_pattern, s))` for the anchored pattern: Python's
`$` matches at the end of the string or just before a single trailing
newline, so a lone trailing newline is tolerated. -/
def reMatchDomain (s : PS) : Bool :=
  domainRe s || (isSufL [nl] s && domainRe s.dropLast)

/-- Model of `validate_url` (src/utils.py lines 74-100): reject empty input, strip
surrounding whitespace, drop an optional `http://`/`https://` prefix
(`url.split('://', 1)[1]` under the `startswith` guard is exactly dropping
the matched prefix), keep everything before the first `/`, then require the
domain regex to match and the remainder to have length at most 253. -/
def validate_url (url : PS) : Bool :=
  if url = [] then false
  else
    let u0 := pyStrip url
    let u := if isPrefL (pstr "http://") u0 then u0.drop 7
             else if isPrefL (pstr "https://") u0 then u0.drop 8
             else u0
    let host := u.takeWhile (fun c => !(c == '/'))
    reMatchDomain host && decide (host.length ≤ 253)

/-- A label as described by the spec's words (section 4.2): 1-63 characters,
alphanumeric with hyphens allowed, but a hyphen may not lead or trail. -/
def specLabelOk (l : PS) : Bool :=
  decide (1 ≤ l.length) && decide (l.length ≤ 63) &&
  l.all (fun c => asciiAlnum c || c == hyph) &&
  !(l.head? == some hyph) && !(l.getLast? == some hyph)

/-- The domain grammar as described by the spec's words: one or more
dot-separated labels, each satisfying `specLabelOk`. -/
def specLabels (s : PS) : Bool := (pySplitOn '.' s).all specLabelOk

/-- The validity predicate exactly as claim C5 words it (no whitespace
trimming, no trailing-newline tolerance): non-empty input whose remainder,
after dropping an optional protocol prefix and everything from the first
`/` onward, is a dot-separated sequence of labels of total length at
most 253. -/
def claimC5Valid (s : PS) : Bool :=
  if s = [] then false
  else
    let u := if isPrefL (pstr "http://") s then s.drop 7
             else if isPrefL (pstr "https://") s then s.drop 8
             else s
    let host := u.takeWhile (fun c => !(c == '/'))
    specLabels host && decide (host.length ≤ 253)

/-- The validity predicate of claim C5 as amended: surrounding whitespace is
trimmed first, and the label check tolerates one trailing newline on the
remainder (the length bound still counts that newline). -/
def claimC5ValidAmended (s : PS) : Bool :=
  if s = [] then false
  else
    let u0 := pyStrip s
    let u := if isPrefL (pstr "http://") u0 then u0.drop 7
             else if isPrefL (pstr "https://") u0 then u0.drop 8
             else u0
    let host := u.takeWhile (fun c => !(c == '/'))
    (specLabels host || (isSufL [nl] host && specLabels host.dropLast)) &&
    decide (host.length ≤ 253)

/-- Model of `clean_search_term` (src/utils.py lines 218-239): collapse whitespace
runs via `' '.join(s.split())`, delete the characters `< > & " '` (the
sequence of `str.replace` calls is a filter), and strip. -/
def clean_search_term (s : PS) : PS :=
  if s = [] then []
  else
    let j := joinSpace (pySplitWS s)
    let f := j.filter (fun c =>
      !(c == '<' || c == '>' || c == '&' || c == qt || c == apos))
    pyStrip f

/-- The non-empty stripped lines of a batch input, in order
(src/utils.py line 278). -/
def linesOf (input : PS) : List PS :=
  ((pySplitOn nl input).map pyStrip).filter (fun l => !l.isEmpty)

/-- Model of `validate_batch_input` (src/utils.py lines 265-294), returning the tuple
`(is_valid, cleaned_queries, error_message)`. -/
def validate_batch_input (batch_input : PS) : Bool × List PS × PS :=
  if batch_input = [] ∨ pyStrip batch_input = [] then
    (false, [], pstr "Batch input cannot be empty")
  else
    let lines := linesOf batch_input
    if lines = [] then (false, [], pstr "No valid queries found")
    else if lines.length > 50 then
      (false, [], pstr "Maximum 50 queries allowed in batch mode")
    else
      let cleaned := (lines.map clean_search_term).filter (fun l => !l.isEmpty)
      if cleaned = [] then (false, [], pstr "No valid queries after cleaning")
      else (true, cleaned, [])

/-- Model of `save_search_history` (src/utils.py lines 30-44).  The JSON file contents
are modelled as the list of entries itself (json.dump followed by json.load
is the identity on the JSON-representable entry lists involved); the
function keeps `history[-1000:]` when more than 1000 entries are given. -/
def save_search_history {α : Type} (history : List α) : List α :=
  if history.length > 1000 then history.drop (history.length - 1000)
  else history

/-- Model of `load_search_history` (src/utils.py lines 15-28): return the stored
list, or the empty list when the file is missing. -/
def load_search_history {α : Type} (stored : Option (List α)) : List α :=
  match stored with
  | some l => l
  | none => []

/-- Metadata record of one catalog entry (src/search_operators.py). -/
structure OperatorInfo where
  description : PS
  type : PS
  placeholder : PS
  examples : List PS
deriving DecidableEq

/-- The `SEARCH_OPERATORS` literal of src/search_operators.py, in source
order.  The key `"allintitle:"` appears twice in the Python dict literal
(lines 25 and 272); both occurrences are kept here so that the
last-assignment-wins lookup below reproduces the dict exactly. -/
def SEARCH_OPERATORS : List (PS × OperatorInfo) := [
  (pstr "site:", ⟨pstr "Search within a specific website or domain",
    pstr "url", pstr "example.com",
    [pstr "site:reddit.com python tutorials",
     pstr "site:github.com machine learning"]⟩),
  (pstr "filetype:", ⟨pstr "Search for specific file types",
    pstr "keyword", pstr "pdf machine learning",
    [pstr "filetype:pdf machine learning",
     pstr "filetype:ppt presentation tips"]⟩),
  (pstr "intitle:", ⟨pstr "Search for pages with specific words in the title",
    pstr "keyword", pstr "python tutorial",
    [pstr "intitle:python tutorial", pstr "intitle:\"data science\""]⟩),
  (pstr "allintitle:",
   ⟨pstr "Search for pages with all specified words in the title",
    pstr "keyword", pstr "python machine learning tutorial",
    [pstr "allintitle:python machine learning",
     pstr "allintitle:web development guide"]⟩),
  (pstr "inurl:", ⟨pstr "Search for pages with specific words in the URL",
    pstr "keyword", pstr "tutorial",
    [pstr "inurl:tutorial python", pstr "inurl:blog machine learning"]⟩),
  (pstr "allinurl:",
   ⟨pstr "Search for pages with all specified words in the URL",
    pstr "keyword", pstr "python tutorial",
    [pstr "allinurl:python tutorial", pstr "allinurl:web development"]⟩),
  (pstr "intext:",
   ⟨pstr "Search for pages with specific words in the body text",
    pstr "keyword", pstr "machine learning",
    [pstr "intext:machine learning", pstr "intext:\"data science\""]⟩),
  (pstr "allintext:",
   ⟨pstr "Search for pages with all specified words in the body text",
    pstr "keyword", pstr "python programming tutorial",
    [pstr "allintext:python programming",
     pstr "allintext:web development guide"]⟩),
  (pstr "related:", ⟨pstr "Find websites related to a specific URL",
    pstr "url", pstr "example.com",
    [pstr "related:stackoverflow.com", pstr "related:github.com"]⟩),
  (pstr "cache:", ⟨pstr "View Google's cached version of a webpage",
    pstr "url", pstr "example.com",
    [pstr "cache:example.com", pstr "cache:stackoverflow.com/questions/123"]⟩),
  (pstr "link:", ⟨pstr "Find pages that link to a specific URL",
    pstr "url", pstr "example.com",
    [pstr "link:stackoverflow.com", pstr "link:github.com"]⟩),
  (pstr "define:", ⟨pstr "Get definitions for words or phrases",
    pstr "keyword", pstr "artificial intelligence",
    [pstr "define:machine learning", pstr "define:cryptocurrency"]⟩),
  (pstr "stocks:", ⟨pstr "Get stock information for a company",
    pstr "keyword", pstr "AAPL", [pstr "stocks:AAPL", pstr "stocks:GOOGL"]⟩),
  (pstr "weather:", ⟨pstr "Get weather information for a location",
    pstr "keyword", pstr "New York",
    [pstr "weather:New York", pstr "weather:London"]⟩),
  (pstr "map:", ⟨pstr "Show map results for a location",
    pstr "keyword", pstr "restaurants New York",
    [pstr "map:restaurants New York", pstr "map:hotels Paris"]⟩),
  (pstr "movie:", ⟨pstr "Search for movie information and showtimes",
    pstr "keyword", pstr "Inception",
    [pstr "movie:Inception", pstr "movie:Avengers"]⟩),
  (pstr "source:",
   ⟨pstr "Search Google News for articles from a specific source",
    pstr "keyword", pstr "CNN",
    [pstr "source:CNN climate change", pstr "source:BBC technology"]⟩),
  (pstr "before:",
   ⟨pstr "Search for content published before a specific date",
    pstr "keyword", pstr "2020 machine learning",
    [pstr "before:2020-01-01 machine learning",
     pstr "before:2019 cryptocurrency"]⟩),
  (pstr "after:", ⟨pstr "Search for content published after a specific date",
    pstr "keyword", pstr "2020 AI trends",
    [pstr "after:2020-01-01 AI trends", pstr "after:2021 web development"]⟩),
  (pstr "daterange:",
   ⟨pstr "Search for content within a specific date range",
    pstr "keyword", pstr "machine learning trends",
    [pstr "daterange:2020-2021 machine learning",
     pstr "daterange:2019-2020 startup"]⟩),
  (pstr "info:", ⟨pstr "Get information about a specific URL",
    pstr "url", pstr "example.com",
    [pstr "info:stackoverflow.com", pstr "info:github.com"]⟩),
  (pstr "phonebook:",
   ⟨pstr "Search for phone numbers (limited availability)",
    pstr "keyword", pstr "John Smith New York",
    [pstr "phonebook:John Smith", pstr "phonebook:business name city"]⟩),
  (pstr "bphonebook:", ⟨pstr "Search for business phone numbers",
    pstr "keyword", pstr "pizza New York",
    [pstr "bphonebook:pizza New York", pstr "bphonebook:dentist Chicago"]⟩),
  (pstr "author:",
   ⟨pstr "Search for articles by a specific author in Google Scholar",
    pstr "keyword", pstr "John Smith",
    [pstr "author:\"John Smith\" machine learning",
     pstr "author:Einstein physics"]⟩),
  (pstr "group:", ⟨pstr "Search within Google Groups",
    pstr "keyword", pstr "python programming",
    [pstr "group:comp.lang.python", pstr "group:alt.comp.programming"]⟩),
  (pstr "inanchor:",
   ⟨pstr "Search for pages with specific anchor text in links",
    pstr "keyword", pstr "click here",
    [pstr "inanchor:\"click here\"", pstr "inanchor:download"]⟩),
  (pstr "allinanchor:",
   ⟨pstr "Search for pages with all specified words in anchor text",
    pstr "keyword", pstr "download free software",
    [pstr "allinanchor:download free", pstr "allinanchor:learn python"]⟩),
  (pstr "around(X):",
   ⟨pstr
      "Search for pages where two terms appear within X words of each other",
    pstr "keyword", pstr "python AROUND(5) tutorial",
    [pstr "python AROUND(10) machine learning",
     pstr "climate AROUND(3) change"]⟩),
  (pstr "loc:", ⟨pstr "Search for results from a specific location",
    pstr "keyword", pstr "restaurants loc:\"New York\"",
    [pstr "restaurants loc:\"New York\"",
     pstr "events loc:\"San Francisco\""]⟩),
  (pstr "location:", ⟨pstr "Search for news from a specific location",
    pstr "keyword", pstr "news location:\"California\"",
    [pstr "news location:\"California\"",
     pstr "weather location:\"London\""]⟩),
  (pstr "AROUND(X):",
   ⟨pstr "Find pages where two terms appear within X words of each other",
    pstr "keyword", pstr "SEO AROUND(5) optimization",
    [pstr "digital AROUND(3) marketing", pstr "content AROUND(10) strategy"]⟩),
  (pstr "\"\"",
   ⟨pstr "Exact phrase search - find pages with the exact phrase",
    pstr "keyword", pstr "\"digital marketing strategy\"",
    [pstr "\"content marketing\"", pstr "\"SEO best practices\""]⟩),
  (pstr "*", ⟨pstr "Wildcard operator - placeholder for unknown words",
    pstr "keyword", pstr "best * for SEO",
    [pstr "best * for marketing", pstr "how to * website traffic"]⟩),
  (pstr "OR", ⟨pstr "Search for pages containing either term",
    pstr "keyword", pstr "SEO OR SEM",
    [pstr "marketing OR advertising", pstr "python OR javascript"]⟩),
  (pstr "-", ⟨pstr "Exclude terms from search results",
    pstr "keyword", pstr "digital marketing -ads",
    [pstr "python tutorials -paid", pstr "SEO guide -2019"]⟩),
  (pstr "+", ⟨pstr "Include specific terms in search results",
    pstr "keyword", pstr "+SEO +optimization",
    [pstr "+digital +marketing tips", pstr "+content +strategy"]⟩),
  (pstr "~", ⟨pstr "Search for synonyms and related terms",
    pstr "keyword", pstr "~car information",
    [pstr "~digital marketing", pstr "~website optimization"]⟩),
  (pstr "..", ⟨pstr "Search within number ranges",
    pstr "keyword", pstr "smartphones $200..$500",
    [pstr "laptops $500..$1000", pstr "camera 2020..2023"]⟩),
  (pstr "imagesize:", ⟨pstr "Find images of specific dimensions",
    pstr "keyword", pstr "imagesize:1920x1080",
    [pstr "imagesize:800x600 wallpaper", pstr "imagesize:1024x768 screenshot"]⟩),
  (pstr "safesearch:", ⟨pstr "Control safe search filtering",
    pstr "keyword", pstr "safesearch:off",
    [pstr "safesearch:on family content", pstr "safesearch:off research"]⟩),
  (pstr "blogurl:", ⟨pstr "Search within blog URLs",
    pstr "url", pstr "blogurl:medium.com",
    [pstr "blogurl:wordpress.com SEO", pstr "blogurl:blogger.com marketing"]⟩),
  (pstr "haschange:", ⟨pstr "Find pages that have changed recently",
    pstr "keyword", pstr "haschange:speed",
    [pstr "haschange:update website", pstr "haschange:new product launch"]⟩),
  (pstr "inposttitle:", ⟨pstr "Search within blog post titles",
    pstr "keyword", pstr "inposttitle:SEO tips",
    [pstr "inposttitle:marketing strategy",
     pstr "inposttitle:web development"]⟩),
  (pstr "inpostauthor:", ⟨pstr "Search by blog post author",
    pstr "keyword", pstr "inpostauthor:\"John Smith\"",
    [pstr "inpostauthor:\"Neil Patel\"", pstr "inpostauthor:\"Rand Fishkin\""]⟩),
  (pstr "allintitle:", ⟨pstr "All specified words must appear in title",
    pstr "keyword", pstr "allintitle:SEO guide 2024",
    [pstr "allintitle:digital marketing strategy",
     pstr "allintitle:web development tutorial"]⟩),
  (pstr "id:", ⟨pstr "Search for specific page or post ID",
    pstr "keyword", pstr "id:12345",
    [pstr "id:wordpress-123", pstr "id:blog-post-456"]⟩)]

/-- Lookup in a Python dict built from an assignment list: the last
assignment to a key wins. -/
def dictGet (l : List (PS × OperatorInfo)) (k : PS) : Option OperatorInfo :=
  l.foldl (fun acc p => if p.1 = k then some p.2 else acc) none

/-- The fallback spec returned by `get_operator_info` for unknown tokens
(src/search_operators.py lines 296-301). -/
def fallbackInfo : OperatorInfo :=
  ⟨pstr "Unknown operator", pstr "keyword", pstr "search term", []⟩

/-- Model of `get_operator_info` (src/search_operators.py lines 286-301):
`SEARCH_OPERATORS.get(operator_name, fallback)`. -/
def get_operator_info (operator_name : PS) : OperatorInfo :=
  match dictGet SEARCH_OPERATORS operator_name with
  | some v => v
  | none => fallbackInfo

theorem boolExt {a b : Bool} (h : a = true ↔ b = true) : a = b := by
  cases a <;> cases b <;> simp_all

theorem dropWhile_dw (p : Char → Bool) (l : List Char) :
    (l.dropWhile p).dropWhile p = l.dropWhile p := by
  induction l with
  | nil => rfl
  | cons a as ih =>
    by_cases h : p a
    · rw [List.dropWhile_cons_of_pos h]; exact ih
    · rw [List.dropWhile_cons_of_neg h, List.dropWhile_cons_of_neg h]

theorem head_dw (p : Char → Bool) (l : List Char) (a : Char) (as : List Char)
    (h : l.dropWhile p = a :: as) : p a = false := by
  induction l with
  | nil => simp [List.dropWhile] at h
  | cons b bs ih =>
    by_cases hb : p b
    · rw [List.dropWhile_cons_of_pos hb] at h; exact ih h
    · rw [List.dropWhile_cons_of_neg hb] at h
      cases h
      simpa using hb

theorem pyStrip_idem (s : PS) : pyStrip (pyStrip s) = pyStrip s := by
  have h2 : (pyStrip s).reverse.dropWhile pyIsSpace = (pyStrip s).reverse := by
    unfold pyStrip
    rw [List.reverse_reverse]
    exact dropWhile_dw _ _
  have hu : s.dropWhile pyIsSpace =
      pyStrip s ++ ((s.dropWhile pyIsSpace).reverse.takeWhile pyIsSpace).reverse := by
    unfold pyStrip
    conv_lhs => rw [← List.reverse_reverse (s.dropWhile pyIsSpace),
      ← List.takeWhile_append_dropWhile (p := pyIsSpace)
        (l := (s.dropWhile pyIsSpace).reverse)]
    rw [List.reverse_append]
  have h1 : (pyStrip s).dropWhile pyIsSpace = pyStrip s := by
    rcases hts : pyStrip s with _ | ⟨a, as⟩
    · rfl
    · have ha : pyIsSpace a = false := by
        rw [hts, List.cons_append] at hu
        exact head_dw _ _ _ _ hu
      exact List.dropWhile_cons_of_neg (by simp [ha])
  show (((pyStrip s).dropWhile pyIsSpace).reverse.dropWhile pyIsSpace).reverse
      = pyStrip s
  rw [h1, h2, List.reverse_reverse]

theorem pyStrip_eq_nil_iff (s : PS) :
    pyStrip s = [] ↔ ∀ c ∈ s, pyIsSpace c = true := by
  unfold pyStrip
  rw [List.reverse_eq_nil_iff, List.dropWhile_eq_nil_iff]
  constructor
  · intro h c hc
    by_cases hmem : c ∈ s.dropWhile pyIsSpace
    · exact h c (List.mem_reverse.mpr hmem)
    · have hsplit := List.takeWhile_append_dropWhile (p := pyIsSpace) (l := s)
      rw [← hsplit] at hc
      rcases List.mem_append.mp hc with h2 | h2
      · exact List.mem_takeWhile_imp h2
      · exact absurd h2 hmem
  · intro h c hc
    exact h c ((List.dropWhile_suffix pyIsSpace).mem (List.mem_reverse.mp hc))

theorem mem_pySplitOn (sep : Char) (s : PS) (p : PS) (hp : p ∈ pySplitOn sep s)
    (c : Char) (hc : c ∈ p) : c ∈ s := by
  induction s generalizing p with
  | nil =>
    simp [pySplitOn] at hp
    subst hp
    simp at hc
  | cons a rest ih =>
    by_cases ha : a = sep
    · rw [pySplitOn, if_pos ha] at hp
      rcases List.mem_cons.mp hp with h | h
      · subst h; simp at hc
      · exact List.mem_cons_of_mem _ (ih p h hc)
    · rw [pySplitOn, if_neg ha] at hp
      rcases hsplit : pySplitOn sep rest with _ | ⟨q, qs⟩
      · rw [hsplit] at hp
        simp at hp
        subst hp
        rcases List.mem_singleton.mp hc with rfl
        exact List.mem_cons_self _ _
      · rw [hsplit] at hp
        rcases List.mem_cons.mp hp with h | h
        · subst h
          rcases List.mem_cons.mp hc with h2 | h2
          · subst h2; exact List.mem_cons_self _ _
          · exact List.mem_cons_of_mem _
              (ih q (by rw [hsplit]; exact List.mem_cons_self _ _) h2)
        · exact List.mem_cons_of_mem _
            (ih p (by rw [hsplit]; exact List.mem_cons_of_mem _ h) hc)

theorem alnum_ne_hyph (x : Char) (hx : asciiAlnum x = true) : x ≠ hyph := by
  intro h
  subst h
  exact absurd hx (by decide)

theorem getLastQ_cons (c : Char) (rest : PS) :
    (c :: rest).getLast? = some (rest.getLastD c) := by
  induction rest generalizing c with
  | nil => rfl
  | cons d ds ih =>
    rw [List.getLast?_cons_cons, ih d, List.getLastD_cons]

theorem getLastD_mem (d c : Char) (ds : PS) : (d :: ds).getLastD c ∈ d :: ds := by
  induction ds generalizing d with
  | nil => simp [List.getLastD]
  | cons e es ih =>
    rw [List.getLastD_cons]
    exact List.mem_cons_of_mem _ (ih e)

theorem labelRe_eq (l : PS) : labelRe l = specLabelOk l := by
  apply boolExt
  cases l with
  | nil => simp [labelRe, specLabelOk]
  | cons c rest =>
    simp only [labelRe, specLabelOk, getLastQ_cons, List.head?_cons,
      List.length_cons, List.all_eq_true, Bool.and_eq_true, Bool.or_eq_true,
      decide_eq_true_eq, beq_iff_eq, Option.some.injEq, Bool.not_eq_true',
      beq_eq_false_iff_ne, ne_eq]
    constructor
    · rintro ⟨⟨⟨hA, hB⟩, hC⟩, hD⟩
      refine ⟨⟨⟨⟨by omega, by omega⟩, ?_⟩, alnum_ne_hyph c hA⟩,
        alnum_ne_hyph _ hD⟩
      intro x hx
      rcases List.mem_cons.mp hx with rfl | hx2
      · exact Or.inl hA
      · exact hC x hx2
    · rintro ⟨⟨⟨⟨h1, hB⟩, hAll⟩, hcne⟩, hlne⟩
      have hA : asciiAlnum c = true := by
        rcases hAll c (List.mem_cons_self _ _) with h | h
        · exact h
        · exact absurd h hcne
      have hC : ∀ x ∈ rest, asciiAlnum x = true ∨ x = hyph :=
        fun x hx => hAll x (List.mem_cons_of_mem _ hx)
      refine ⟨⟨⟨hA, by omega⟩, hC⟩, ?_⟩
      cases rest with
      | nil => exact hA
      | cons d ds =>
        rcases hC _ (getLastD_mem d c ds) with h | h
        · exact h
        · exact absurd h hlne

theorem domainRe_eq_spec (r : PS) : domainRe r = specLabels r := by
  unfold domainRe specLabels
  rw [show labelRe = specLabelOk from funext labelRe_eq]

theorem linesOf_ne_nil_guard (input : PS) (h : linesOf input ≠ []) :
    ¬(input = [] ∨ pyStrip input = []) := by
  intro hor
  apply h
  rcases hor with rfl | hstrip
  · rfl
  · have hall : ∀ c ∈ input, pyIsSpace c = true :=
      (pyStrip_eq_nil_iff input).mp hstrip
    unfold linesOf
    rw [List.filter_eq_nil_iff]
    intro l hl
    rcases List.mem_map.mp hl with ⟨piece, hpiece, rfl⟩
    have hnil : pyStrip piece = [] := (pyStrip_eq_nil_iff piece).mpr
      (fun c hc => hall c (mem_pySplitOn nl input piece hpiece c hc))
    simp [hnil]

theorem dictGet_acc (l : List (PS × OperatorInfo)) (k : PS)
    (acc : Option OperatorInfo) (h : ∀ p ∈ l, p.1 ≠ k) :
    l.foldl (fun acc p => if p.1 = k then some p.2 else acc) acc = acc := by
  induction l generalizing acc with
  | nil => rfl
  | cons q qs ih =>
    rw [List.foldl_cons, if_neg (h q (List.mem_cons_self _ _))]
    exact ih acc (fun p hp => h p (List.mem_cons_of_mem _ hp))

theorem dictGet_none (l : List (PS × OperatorInfo)) (k : PS)
    (h : ∀ p ∈ l, p.1 ≠ k) : dictGet l k = none :=
  dictGet_acc l k none h

/-- C1 counterexample: the claim predicts that the upper-case catalog token
`"AROUND(X):"` takes the AROUND rewriting branch, so that
`buildSearchUrl("AROUND(X):", "machine learning", None)` would carry the
query `machine AROUND(5) learning`; the code instead compares the operator
token case-sensitively, falls through to the trailing-colon rule, and
produces the query `AROUND(X):"machine learning"`. -/
theorem c1_counterexample :
    build_search_url (pstr "AROUND(X):") (pstr "machine learning") none =
      googleUrl (quotePlus (pstr "AROUND(X):\"machine learning\"")) ∧
    build_search_url (pstr "AROUND(X):") (pstr "machine learning") none ≠
      googleUrl (quotePlus (pstr "machine AROUND(5) learning")) := by
  constructor
  · decide
  · decide

/-- C1 (amended): the rule-3 token match is exact (case-sensitive), so only
the lower-case operator `"around(X):"` takes the AROUND branch.  For that
operator and an already-stripped term: if the term does not contain
`AROUND(` case-insensitively, a term of at least two whitespace-separated
words becomes `{first} AROUND(5) {rest-joined}` and a one-word term becomes
`{term} AROUND(5) related`; a term already containing `AROUND(` passes
through unchanged. -/
theorem c1_amended (term : PS) (extra : Option Params)
    (h : pyStrip term = term) :
    (hasSub (pstr "AROUND(") (asciiUpperL term) = false →
      (∀ w1 w2 rest, pySplitWS term = w1 :: w2 :: rest →
        build_search_url (pstr "around(X):") term extra =
          googleUrl (quotePlus
            (w1 ++ pstr " AROUND(5) " ++ joinSpace (w2 :: rest)))) ∧
      (∀ w, pySplitWS term = [w] →
        build_search_url (pstr "around(X):") term extra =
          googleUrl (quotePlus (term ++ pstr " AROUND(5) related")))) ∧
    (hasSub (pstr "AROUND(") (asciiUpperL term) = true →
      build_search_url (pstr "around(X):") term extra =
        googleUrl (quotePlus term)) := by
  refine ⟨fun hns => ⟨fun w1 w2 rest hsp => ?_, fun w hsp => ?_⟩,
    fun hs => ?_⟩ <;>
    simp only [build_search_url, build_query, h, if_true]
  · rw [hns, hsp,
      if_neg (show ¬(pstr "around(X):" = pstr "daterange:") by decide),
      if_neg (show ¬(false = true) by decide),
      if_neg (show ¬(pstr "around(X):" = pstr "before:" ∨
        pstr "around(X):" = pstr "after:") by decide)]
  · rw [hns, hsp,
      if_neg (show ¬(pstr "around(X):" = pstr "daterange:") by decide),
      if_neg (show ¬(false = true) by decide),
      if_neg (show ¬(pstr "around(X):" = pstr "before:" ∨
        pstr "around(X):" = pstr "after:") by decide)]
  · rw [hs,
      if_neg (show ¬(pstr "around(X):" = pstr "daterange:") by decide),
      if_pos (show true = true from rfl),
      if_neg (show ¬(pstr "around(X):" = pstr "before:" ∨
        pstr "around(X):" = pstr "after:") by decide)]

/-- C1 witness: a concrete two-word term takes the rewrite shape. -/
theorem c1_witness :
    build_search_url (pstr "around(X):") (pstr "python tutorial") none =
      googleUrl (quotePlus (pstr "python AROUND(5) tutorial")) := by
  have h := ((c1_amended (pstr "python tutorial") none (by decide)).1
    (by decide)).1 (pstr "python") (pstr "tutorial") [] (by decide)
  exact h.trans (by decide)

/-- C2: for an operator with a trailing colon that no earlier rule handles
and an already-stripped term, the URL-flavored operators `site:`,
`related:`, `cache:`, `link:`, `info:` emit `{operator}{term}` unquoted,
and any other colon operator wraps the term in double quotes exactly when
it contains a space and is not already fully quote-wrapped. -/
theorem c2_colon_rule (operator term : PS) (extra : Option Params)
    (hterm : pyStrip term = term)
    (hcolon : isSufL (pstr ":") operator = true)
    (h1 : operator ≠ pstr "before:") (h2 : operator ≠ pstr "after:")
    (h3 : operator ≠ pstr "daterange:")
    (h4 : operator ≠ pstr "around(X):") :
    build_search_url operator term extra =
      if operator ∈ [pstr "site:", pstr "related:", pstr "cache:",
                     pstr "link:", pstr "info:"] then
        googleUrl (quotePlus (operator ++ term))
      else if hasCh sp term && !(isPrefL [qt] term && isSufL [qt] term) then
        googleUrl (quotePlus (operator ++ qt :: term ++ [qt]))
      else googleUrl (quotePlus (operator ++ term)) := by
  simp only [build_search_url, build_query, hterm]
  rw [if_neg (not_or.mpr ⟨h1, h2⟩), if_neg h3, if_neg h4, if_pos hcolon]
  by_cases hm : operator ∈ [pstr "site:", pstr "related:", pstr "cache:",
                            pstr "link:", pstr "info:"]
  · rw [if_pos hm, if_pos hm]
  · rw [if_neg hm, if_neg hm]
    by_cases hq : (hasCh sp term && !(isPrefL [qt] term && isSufL [qt] term))
        = true
    · rw [if_pos hq, if_pos hq]
    · rw [if_neg hq, if_neg hq]

/-- C2 witness: `intitle:` with the spaced term `data science` is
quote-wrapped, matching the spec's worked example. -/
theorem c2_witness :
    build_search_url (pstr "intitle:") (pstr "data science") none =
      googleUrl (quotePlus (pstr "intitle:\"data science\"")) := by
  have h := c2_colon_rule (pstr "intitle:") (pstr "data science") none
    (by decide) (by decide) (by decide) (by decide) (by decide) (by decide)
  rw [if_neg (by decide), if_pos (by decide)] at h
  exact h.trans (by decide)

/-- C3: for an already-stripped term, `daterange:` produces the query
`after:{year}-01-01 before:{year}-12-31 {term}` where `year` is the first
four characters of `extra.date`, and the default window
`after:2020-01-01 before:2021-12-31 {term}` when no date is given. -/
theorem c3_daterange (term : PS) (extra : Option Params)
    (h : pyStrip term = term) :
    build_search_url (pstr "daterange:") term extra =
      match getDate extra with
      | some d =>
          googleUrl (quotePlus (pstr "after:" ++ d.take 4 ++
            pstr "-01-01 before:" ++ d.take 4 ++ pstr "-12-31 " ++ term))
      | none =>
          googleUrl (quotePlus
            (pstr "after:2020-01-01 before:2021-12-31 " ++ term)) := by
  simp only [build_search_url, build_query, h, if_true]
  cases getDate extra <;>
    rw [if_neg (show ¬(pstr "daterange:" = pstr "before:" ∨
      pstr "daterange:" = pstr "after:") by decide)]

/-- C3 witness: the claim's concrete instance,
`buildSearchUrl("daterange:", "AI", {date:"2021-06-01"})` carries the
decoded query `after:2021-01-01 before:2021-12-31 AI`. -/
theorem c3_witness :
    build_search_url (pstr "daterange:") (pstr "AI")
        (some ⟨some (pstr "2021-06-01")⟩) =
      googleUrl (quotePlus (pstr "after:2021-01-01 before:2021-12-31 AI")) := by
  have h := c3_daterange (pstr "AI") (some ⟨some (pstr "2021-06-01")⟩)
    (by decide)
  exact h.trans (by decide)

/-- C4: every produced URL is exactly the fixed template
`https://www.google.com/search?q={encoded}&num=100` around the
`quote_plus` form-style encoding (spaces as `+`) of the query assembled by
the operator-formatting rules; no other URL shape is ever produced. -/
theorem c4_url_shape (operator term : PS) (extra : Option Params) :
    build_search_url operator term extra =
      pstr "https://www.google.com/search?q=" ++
        quotePlus (build_query operator term extra) ++ pstr "&num=100" := rfl

/-- C9: `buildSearchUrl` is invariant under trimming of the term, because
the term is stripped before any formatting rule applies. -/
theorem c9_trim_invariant (operator term : PS) (extra : Option Params) :
    build_search_url operator term extra =
      build_search_url operator (pyStrip term) extra := by
  simp only [build_search_url, build_query, pyStrip_idem]

/-- C5 counterexample: `isValidDomainOrUrl` returns true on
`" example.com "` (the code strips surrounding whitespace first) and on
`"exa\n/x"` (the regex anchor `$` tolerates a trailing newline on the
remainder `"exa\n"`), while the claim's characterization — which strips
only the protocol prefix and the path — classifies both as invalid. -/
theorem c5_counterexample :
    (validate_url (pstr " example.com ") = true ∧
     claimC5Valid (pstr " example.com ") = false) ∧
    (validate_url (pstr "exa\n/x") = true ∧
     claimC5Valid (pstr "exa\n/x") = false) :=
  ⟨⟨by decide, by decide⟩, ⟨by decide, by decide⟩⟩

/-- C5 (amended): `isValidDomainOrUrl` returns false on empty input and
otherwise returns true exactly when, after trimming surrounding whitespace,
stripping an optional `http://`/`https://` prefix and everything from the
first `/` onward, the remainder — tolerating one trailing newline for the
label check — is one or more dot-separated labels, each 1-63 alphanumeric
characters with internal (not leading or trailing) hyphens, with the
remainder (any trailing newline included) of length at most 253. -/
theorem c5_amended (s : PS) : validate_url s = claimC5ValidAmended s := by
  unfold validate_url claimC5ValidAmended reMatchDomain
  rw [funext domainRe_eq_spec]

/-- C6: saving then loading round-trips: a history of at most 1000 entries
is returned exactly, and a longer one is truncated at save time to its last
1000 entries in original order (oldest dropped first). -/
theorem c6_round_trip {α : Type} (X : List α) :
    (X.length ≤ 1000 →
      load_search_history (some (save_search_history X)) = X) ∧
    (1000 < X.length →
      load_search_history (some (save_search_history X)) =
        X.drop (X.length - 1000) ∧
      (X.drop (X.length - 1000)).length = 1000) := by
  constructor
  · intro h
    unfold save_search_history load_search_history
    rw [if_neg (by omega)]
  · intro h
    unfold save_search_history load_search_history
    rw [if_pos (by omega)]
    exact ⟨rfl, by rw [List.length_drop]; omega⟩

/-- C6 witness: a short history survives unchanged; a 1001-entry history is
truncated to its last 1000 entries. -/
theorem c6_witness :
    load_search_history (some (save_search_history [0, 1, 2])) =
      ([0, 1, 2] : List Nat) ∧
    load_search_history
        (some (save_search_history (List.replicate 1001 (0 : Nat)))) =
      (List.replicate 1001 (0 : Nat)).drop
        ((List.replicate 1001 (0 : Nat)).length - 1000) :=
  ⟨(c6_round_trip [0, 1, 2]).1 (by decide),
   ((c6_round_trip (List.replicate 1001 (0 : Nat))).2
     (by rw [List.length_replicate]; omega)).1⟩

/-- C7: batch validation caps non-empty lines at exactly 50: empty or
whitespace-only input fails with the "empty" error, 51 or more non-empty
trimmed lines fail with the "too many" error, and exactly 50 lines are
never rejected by the cap. -/
theorem c7_batch_cap (input : PS) :
    (pyStrip input = [] →
      validate_batch_input input =
        (false, [], pstr "Batch input cannot be empty")) ∧
    (51 ≤ (linesOf input).length →
      validate_batch_input input =
        (false, [], pstr "Maximum 50 queries allowed in batch mode")) ∧
    ((linesOf input).length = 50 →
      (validate_batch_input input).2.2 ≠
        pstr "Maximum 50 queries allowed in batch mode") := by
  refine ⟨fun hst => ?_, fun h51 => ?_, fun h50 => ?_⟩
  · unfold validate_batch_input
    rw [if_pos (Or.inr hst)]
  · have hne : linesOf input ≠ [] := by
      intro hnil; rw [hnil] at h51; simp at h51
    simp only [validate_batch_input]
    rw [if_neg (linesOf_ne_nil_guard input hne), if_neg hne,
      if_pos (by omega)]
  · have hne : linesOf input ≠ [] := by
      intro hnil; rw [hnil] at h50; simp at h50
    simp only [validate_batch_input]
    rw [if_neg (linesOf_ne_nil_guard input hne), if_neg hne,
      if_neg (by omega)]
    by_cases hcl : ((linesOf input).map clean_search_term).filter
        (fun l => !l.isEmpty) = []
    · rw [if_pos hcl]; decide
    · rw [if_neg hcl]
      show ([] : PS) ≠ pstr "Maximum 50 queries allowed in batch mode"
      decide

/-- C7 witness: whitespace-only input gives the "empty" error, 51 lines give
the "too many" error, and 50 lines do not. -/
theorem c7_witness :
    validate_batch_input (pstr "   ") =
      (false, [], pstr "Batch input cannot be empty") ∧
    validate_batch_input ((List.replicate 51 (pstr "a\n")).flatten) =
      (false, [], pstr "Maximum 50 queries allowed in batch mode") ∧
    (validate_batch_input ((List.replicate 50 (pstr "a\n")).flatten)).2.2 ≠
      pstr "Maximum 50 queries allowed in batch mode" :=
  ⟨(c7_batch_cap (pstr "   ")).1 (by decide),
   (c7_batch_cap ((List.replicate 51 (pstr "a\n")).flatten)).2.1 (by decide),
   (c7_batch_cap ((List.replicate 50 (pstr "a\n")).flatten)).2.2 (by decide)⟩

/-- C8: `get_operator_info` never fails: an unknown token resolves to the
fallback spec (description "Unknown operator", keyword kind, placeholder
"search term", no examples), and a known token resolves to its catalog
entry (the dict value, i.e. the last assignment for that key). -/
theorem c8_lookup (token : PS) :
    ((∀ p ∈ SEARCH_OPERATORS, p.1 ≠ token) →
      get_operator_info token = fallbackInfo) ∧
    (∀ v, dictGet SEARCH_OPERATORS token = some v →
      get_operator_info token = v) := by
  constructor
  · intro h
    unfold get_operator_info
    rw [dictGet_none SEARCH_OPERATORS token h]
  · intro v hv
    unfold get_operator_info
    rw [hv]

/-- C8 witness: an unknown token yields the fallback spec, and a known
token yields its catalog entry. -/
theorem c8_witness :
    get_operator_info (pstr "nosuch:") = fallbackInfo ∧
    get_operator_info (pstr "OR") =
      ⟨pstr "Search for pages containing either term", pstr "keyword",
       pstr "SEO OR SEM",
       [pstr "marketing OR advertising", pstr "python OR javascript"]⟩ :=
  ⟨(c8_lookup (pstr "nosuch:")).1 (by decide),
   (c8_lookup (pstr "OR")).2 _ (by decide)⟩

/-- C10: the batch result is internally consistent: a failing result
carries no queries and a non-empty error message; a successful result
carries an empty error and between 1 and 50 queries, namely the non-empty
cleaned lines in original input order. -/
theorem c10_batch_consistency (input : PS) :
    ((validate_batch_input input).1 = false →
      (validate_batch_input input).2.1 = [] ∧
      (validate_batch_input input).2.2 ≠ []) ∧
    ((validate_batch_input input).1 = true →
      (validate_batch_input input).2.2 = [] ∧
      1 ≤ (validate_batch_input input).2.1.length ∧
      (validate_batch_input input).2.1.length ≤ 50 ∧
      (validate_batch_input input).2.1 =
        ((linesOf input).map clean_search_term).filter
          (fun l => !l.isEmpty)) := by
  by_cases h0 : input = [] ∨ pyStrip input = []
  · simp only [validate_batch_input]
    rw [if_pos h0]
    exact ⟨fun _ => ⟨rfl, by decide⟩, fun h => absurd h (by decide)⟩
  · simp only [validate_batch_input]
    rw [if_neg h0]
    by_cases h1 : linesOf input = []
    · rw [if_pos h1]
      exact ⟨fun _ => ⟨rfl, by decide⟩, fun h => absurd h (by decide)⟩
    · rw [if_neg h1]
      by_cases h2 : (linesOf input).length > 50
      · rw [if_pos h2]
        exact ⟨fun _ => ⟨rfl, by decide⟩, fun h => absurd h (by decide)⟩
      · rw [if_neg h2]
        by_cases h3 : ((linesOf input).map clean_search_term).filter
            (fun l => !l.isEmpty) = []
        · rw [if_pos h3]
          exact ⟨fun _ => ⟨rfl, by decide⟩, fun h => absurd h (by decide)⟩
        · rw [if_neg h3]
          refine ⟨fun h => absurd (show true = false from h) (by decide),
            fun _ => ⟨rfl, ?_, ?_, rfl⟩⟩
          · exact List.length_pos.mpr h3
          · show (((linesOf input).map clean_search_term).filter
              (fun l => !List.isEmpty l)).length ≤ 50
            have hle := List.length_filter_le (fun l => !List.isEmpty l)
              ((linesOf input).map clean_search_term)
            rw [List.length_map] at hle
            omega

/-- C10 witness: a concrete failing input and a concrete successful input
exhibit both halves of the consistency property. -/
theorem c10_witness :
    ((validate_batch_input (pstr "")).2.1 = [] ∧
     (validate_batch_input (pstr "")).2.2 ≠ []) ∧
    ((validate_batch_input (pstr "a b\n x ")).2.2 = [] ∧
     1 ≤ (validate_batch_input (pstr "a b\n x ")).2.1.length ∧
     (validate_batch_input (pstr "a b\n x ")).2.1.length ≤ 50 ∧
     (validate_batch_input (pstr "a b\n x ")).2.1 =
       ((linesOf (pstr "a b\n x ")).map clean_search_term).filter
         (fun l => !l.isEmpty)) :=
  ⟨(c10_batch_consistency (pstr "")).1 (by decide),
   (c10_batch_consistency (pstr "a b\n x ")).2 (by decide)⟩
